import Mathlib

/-!
Verification of `src/lib/cat.py`: a `Cat` class with a class-level registry
list `Cat.all`, a constructor that appends the new instance to the registry,
a `save` method issuing one parameterized SQL insert through a cursor, and a
module-level driver that connects to `db/pets.db`, constructs two cats and
saves every registry entry.

The embedding is a shallow one: Python values become the `Value` inductive,
the registry becomes an explicit `List Obj` threaded through operations, the
cursor/store becomes an explicit `DBState`, and `cursor.execute` on the one
statement shape the program issues is modelled by `executeInsert`
(sqlite semantics for a parameterized INSERT: bind each parameter as a
literal value into a fresh row; fail when the target table is absent).
-/

/-- A Python runtime value as used by this program: strings, integers, or
`None` standing in for any other object handed to the unvalidated
constructor. -/
inductive Value where
  | vStr (s : String)
  | vInt (n : Int)
  | vNone
  deriving DecidableEq, Repr

/-- The entity of `cat.py`: fields `name`, `breed`, `age` set verbatim by
`__init__`. -/
structure Cat where
  name : Value
  breed : Value
  age : Value
  deriving DecidableEq, Repr

/-- An element of the class-level registry list. Python lists hold arbitrary
objects, so the registry element type distinguishes constructed cats from
any other value passed to `add_cat_to_all` directly. -/
inductive Obj where
  | cat (c : Cat)
  | other (v : Value)
  deriving DecidableEq, Repr

/-- `Cat.add_cat_to_all(cls, cat)`: `cls.all.append(cat)` — unconditionally
appends its argument to the shared registry list. -/
def Cat.add_cat_to_all (all : List Obj) (x : Obj) : List Obj :=
  all ++ [x]

/-- `Cat.__init__(self, name, breed, age)`: stores the three arguments
verbatim as fields and calls `add_cat_to_all(self)`. Returns the new
instance and the updated registry. -/
def Cat.init (name breed age : Value) (all : List Obj) : Cat × List Obj :=
  let c : Cat := ⟨name, breed, age⟩
  (c, Cat.add_cat_to_all all (Obj.cat c))

/-- A parameterized SQL statement as handed to `cursor.execute`: the SQL
text and the positional parameter tuple, kept separate (parameter binding,
not string concatenation). -/
structure SQLStmt where
  text : String
  params : List Value
  deriving DecidableEq, Repr

/-- The fixed SQL text of the one statement `save` issues. -/
def insertCatsSQL : String :=
  "INSERT INTO cats (name, breed, age) VALUES (?, ?, ?)"

/-- The statement `Cat.save` hands to `cursor.execute`: the fixed insert
text with `(self.name, self.breed, self.age)` as the positional
parameters. -/
def Cat.saveStmt (c : Cat) : SQLStmt :=
  ⟨insertCatsSQL, [c.name, c.breed, c.age]⟩

/-- The complete list of statements a single `save` call issues: the method
body is one `cursor.execute` call and nothing else. -/
def Cat.saveStmts (c : Cat) : List SQLStmt :=
  [Cat.saveStmt c]

/-- A row of the `cats` table: the bound parameter values, stored
literally. -/
abbrev Row := List Value

/-- The store as `save` can observe it through the cursor: the `cats` table
contents when the table exists, `none` when it does not. -/
structure DBState where
  cats : Option (List Row)
  deriving DecidableEq, Repr

/-- The error taxonomy of the store writer: the store rejects the write
(here: the target table is absent, or the statement is not one the model
covers). -/
inductive PersistenceError where
  | noSuchTable
  | unknownStmt
  deriving DecidableEq, Repr

/-- `cursor.execute(text, params)` for the statement shapes this program
issues: a parameterized `INSERT INTO cats` appends exactly one row holding
the bound parameter values literally (sqlite binds parameters as values, so
the SQL text is never altered by their content); when the `cats` table is
absent the store rejects the write and its contents are unchanged. -/
def executeInsert (db : DBState) (stmt : SQLStmt) :
    Except PersistenceError Unit × DBState :=
  if stmt.text = insertCatsSQL then
    match db.cats with
    | none => (Except.error PersistenceError.noSuchTable, db)
    | some rows => (Except.ok (), ⟨some (rows ++ [stmt.params])⟩)
  else
    (Except.error PersistenceError.unknownStmt, db)

/-- `Cat.save(self, cursor)`: execute the fixed parameterized insert with
the entity's fields, returning the outcome and the store after the call. -/
def Cat.save (c : Cat) (db : DBState) :
    Except PersistenceError Unit × DBState :=
  executeInsert db (Cat.saveStmt c)

/-- Process-wide state visible to a `save` call: the shared registry and
the store behind the cursor. -/
structure ProcState where
  reg : List Obj
  db : DBState
  deriving DecidableEq, Repr

/-- `Cat.save` as a step on the whole process state, also returning `self`
after the call: the method body contains no assignment to the fields of
`self`
and no registry operation, so only the store component can change. -/
def Cat.saveProc (c : Cat) (st : ProcState) :
    Except PersistenceError Unit × Cat × ProcState :=
  let p := Cat.save c st.db
  (p.1, c, ⟨st.reg, p.2⟩)

/-- Construct entities from a list of field triples in sequence, threading
the registry: the iterated effect of `Cat(...)` calls. -/
def constructAll (inputs : List (Value × Value × Value)) (reg : List Obj) :
    List Obj :=
  match inputs with
  | [] => reg
  | (n, b, a) :: rest => constructAll rest (Cat.init n b a reg).2

/-- Reading `Cat.all`: returns the registry contents and leaves the
registry as it was. -/
def readAll (reg : List Obj) : List Obj × List Obj :=
  (reg, reg)

/-- Observable events of the module-level driver: opening the sqlite
connection, each `cursor.execute`, and the commit/flush/close calls the
module never makes. -/
inductive Event where
  | connect (path : String)
  | execute (stmt : SQLStmt)
  | commit
  | flush
  | close
  deriving DecidableEq, Repr

/-- The cats stored in a registry, in registry order: what
`for cat in Cat.all` iterates over here. -/
def catsIn (reg : List Obj) : List Cat :=
  reg.filterMap (fun o => match o with
    | Obj.cat c => some c
    | Obj.other _ => none)

/-- The module-level driver of `cat.py`, run on import: connect to
`db/pets.db`, construct `Cat("Maru", "scottish fold", 3)` and
`Cat("Hana", "tortoiseshell", 1)` starting from the empty registry, then
save every registry entry in registry order. Returns the event trace and
the final registry. No commit, flush or close is ever issued. -/
def driverRun : List Event × List Obj :=
  let reg0 : List Obj := []
  let r1 := Cat.init (Value.vStr "Maru") (Value.vStr "scottish fold")
    (Value.vInt 3) reg0
  let r2 := Cat.init (Value.vStr "Hana") (Value.vStr "tortoiseshell")
    (Value.vInt 1) r1.2
  let evs := Event.connect "db/pets.db" ::
    (catsIn r2.2).map (fun c => Event.execute (Cat.saveStmt c))
  (evs, r2.2)

/-- The apostrophe character, for building names with SQL metacharacters. -/
def apos : String :=
  String.singleton (Char.ofNat 39)

/-- The name `O'Brien`, containing a single quote. -/
def oBrien : String :=
  "O" ++ apos ++ "Brien"

/-- The registry after constructing a list of entities starting from `reg`
is `reg` followed by exactly the constructed cats, in construction order. -/
theorem constructAll_eq (inputs : List (Value × Value × Value))
    (reg : List Obj) :
    constructAll inputs reg =
      reg ++ inputs.map (fun t => Obj.cat ⟨t.1, t.2.1, t.2.2⟩) := by
  induction inputs generalizing reg with
  | nil => simp [constructAll]
  | cons hd tl ih =>
    obtain ⟨n, b, a⟩ := hd
    simp [constructAll, Cat.init, Cat.add_cat_to_all, ih]

/-- C1: for every entity and every store whose `cats` table exists, `save`
succeeds and the table afterwards is exactly the old rows followed by one
new row holding the entity's `name`, `breed`, `age`; no other row is
added, removed or mutated. -/
theorem save_inserts_exactly_one_row (c : Cat) (rows : List Row)
    (db : DBState) (h : db.cats = some rows) :
    Cat.save c db =
      (Except.ok (), ⟨some (rows ++ [[c.name, c.breed, c.age]])⟩) := by
  simp [Cat.save, executeInsert, Cat.saveStmt, h]

/-- Witness for C1: saving `("Maru", "scottish fold", 3)` into an empty
existing table yields exactly the one row with those values. -/
theorem save_inserts_exactly_one_row_witness :
    (⟨some []⟩ : DBState).cats = some [] ∧
    Cat.save ⟨Value.vStr "Maru", Value.vStr "scottish fold", Value.vInt 3⟩
        ⟨some []⟩ =
      (Except.ok (), ⟨some [[Value.vStr "Maru", Value.vStr "scottish fold",
        Value.vInt 3]]⟩) :=
  ⟨rfl, save_inserts_exactly_one_row
    ⟨Value.vStr "Maru", Value.vStr "scottish fold", Value.vInt 3⟩
    [] ⟨some []⟩ rfl⟩

/-- C2: constructing entities e1, …, en in sequence from the empty registry
makes `Cat.all` exactly `[e1, …, en]` in construction order, with no
omissions and no other entries. -/
theorem registry_is_constructed_sequence
    (inputs : List (Value × Value × Value)) :
    constructAll inputs [] =
      inputs.map (fun t => Obj.cat ⟨t.1, t.2.1, t.2.2⟩) := by
  simpa using constructAll_eq inputs []

/-- C3: a `save` call issues exactly one statement, and that statement is
exactly the fixed insert text with `name`, `breed`, `age` bound
positionally, in that order. -/
theorem save_issues_single_fixed_insert (c : Cat) :
    Cat.saveStmts c =
      [⟨"INSERT INTO cats (name, breed, age) VALUES (?, ?, ?)",
        [c.name, c.breed, c.age]⟩] ∧
    (Cat.saveStmts c).length = 1 :=
  ⟨rfl, rfl⟩

/-- C4: for any `name` value, including SQL metacharacters, the SQL text
handed to the cursor is the fixed insert text independent of the fields,
and the row stored is the literal value unmodified; the call succeeds
whenever the table exists. -/
theorem save_binds_params_literally (name breed age : Value)
    (rows : List Row) (db : DBState) (h : db.cats = some rows) :
    (Cat.saveStmt ⟨name, breed, age⟩).text = insertCatsSQL ∧
    Cat.save ⟨name, breed, age⟩ db =
      (Except.ok (), ⟨some (rows ++ [[name, breed, age]])⟩) := by
  refine ⟨rfl, ?_⟩
  simp [Cat.save, executeInsert, Cat.saveStmt, h]

/-- Witness for C4: saving a cat named `O'Brien` (a name containing a
quote) succeeds and stores the literal string. -/
theorem save_binds_params_literally_witness :
    (⟨some []⟩ : DBState).cats = some [] ∧
    ((Cat.saveStmt ⟨Value.vStr oBrien, Value.vStr "x", Value.vInt 0⟩).text =
        insertCatsSQL ∧
      Cat.save ⟨Value.vStr oBrien, Value.vStr "x", Value.vInt 0⟩ ⟨some []⟩ =
        (Except.ok (), ⟨some [[Value.vStr oBrien, Value.vStr "x",
          Value.vInt 0]]⟩)) :=
  ⟨rfl, save_binds_params_literally (Value.vStr oBrien) (Value.vStr "x")
    (Value.vInt 0) [] ⟨some []⟩ rfl⟩

/-- C5: when the `cats` table is absent the store rejects the write:
`save` fails with a persistence error and the store contents are exactly
what they were before the call. -/
theorem save_fails_without_table (c : Cat) (db : DBState)
    (h : db.cats = none) :
    Cat.save c db = (Except.error PersistenceError.noSuchTable, db) := by
  simp [Cat.save, executeInsert, Cat.saveStmt, h]

/-- Witness for C5: saving into a store with no `cats` table fails and
leaves the store unchanged. -/
theorem save_fails_without_table_witness :
    (⟨none⟩ : DBState).cats = none ∧
    Cat.save ⟨Value.vStr "Maru", Value.vStr "scottish fold", Value.vInt 3⟩
        ⟨none⟩ =
      (Except.error PersistenceError.noSuchTable, ⟨none⟩) :=
  ⟨rfl, save_fails_without_table
    ⟨Value.vStr "Maru", Value.vStr "scottish fold", Value.vInt 3⟩
    ⟨none⟩ rfl⟩

/-- C6: starting from the empty registry, after constructing n entities
the registry length is n; and reading the registry twice with no
construction in between returns the same sequence both times, because a
read leaves the registry untouched. -/
theorem registry_length_and_pure_read
    (inputs : List (Value × Value × Value)) (reg : List Obj) :
    (constructAll inputs []).length = inputs.length ∧
    (readAll reg).1 = (readAll (readAll reg).2).1 ∧
    (readAll reg).2 = reg :=
  ⟨by simp [registry_is_constructed_sequence], rfl, rfl⟩

/-- C7: `save` mutates neither the entity nor the registry: the receiver
after the call equals the entity before it (its three fields included),
and the registry component of the process state is unchanged. -/
theorem save_frame (c : Cat) (st : ProcState) :
    (Cat.saveProc c st).2.1 = c ∧
    (Cat.saveProc c st).2.1.name = c.name ∧
    (Cat.saveProc c st).2.1.breed = c.breed ∧
    (Cat.saveProc c st).2.1.age = c.age ∧
    (Cat.saveProc c st).2.2.reg = st.reg :=
  ⟨rfl, rfl, rfl, rfl, rfl⟩

/-- C8: construction is total and unvalidated: for any three values
whatsoever it succeeds, stores the arguments verbatim as the fields, and
its only side effect is appending the new instance once to the registry. -/
theorem construction_total_verbatim (n b a : Value) (reg : List Obj) :
    (Cat.init n b a reg).1 = ⟨n, b, a⟩ ∧
    (Cat.init n b a reg).2 = reg ++ [Obj.cat ⟨n, b, a⟩] ∧
    (Cat.init n b a reg).2.length = reg.length + 1 := by
  refine ⟨rfl, rfl, ?_⟩
  simp [Cat.init, Cat.add_cat_to_all]

/-- C9: the module-level driver connects to `db/pets.db`, constructs
exactly the two entities `("Maru", "scottish fold", 3)` and
`("Hana", "tortoiseshell", 1)`, saves every registry entry in registry
order (two executes of the fixed insert), and never issues a commit,
flush or close, leaving the inserts uncommitted. -/
theorem driver_trace :
    driverRun.1 =
      [Event.connect "db/pets.db",
        Event.execute ⟨insertCatsSQL,
          [Value.vStr "Maru", Value.vStr "scottish fold", Value.vInt 3]⟩,
        Event.execute ⟨insertCatsSQL,
          [Value.vStr "Hana", Value.vStr "tortoiseshell", Value.vInt 1]⟩] ∧
    driverRun.2 =
      [Obj.cat ⟨Value.vStr "Maru", Value.vStr "scottish fold",
          Value.vInt 3⟩,
        Obj.cat ⟨Value.vStr "Hana", Value.vStr "tortoiseshell",
          Value.vInt 1⟩] ∧
    Event.commit ∉ driverRun.1 ∧
    Event.flush ∉ driverRun.1 ∧
    Event.close ∉ driverRun.1 := by
  refine ⟨rfl, rfl, ?_, ?_, ?_⟩ <;> decide

/-- C10: `add_cat_to_all` accepts any object: it appends exactly its
argument to the registry unconditionally, growing the length by one, so
repeated direct calls produce duplicates and can make the length exceed
the number of constructions. -/
theorem add_cat_to_all_appends_any (reg : List Obj) (x : Obj) :
    Cat.add_cat_to_all reg x = reg ++ [x] ∧
    (Cat.add_cat_to_all reg x).length = reg.length + 1 ∧
    Cat.add_cat_to_all (Cat.add_cat_to_all [] x) x = [x, x] := by
  refine ⟨rfl, ?_, rfl⟩
  simp [Cat.add_cat_to_all]
